import Mathlib

/-!
Shallow embedding of the token-portal credential engine
(backend/app: services, core/dependencies, core/middleware, db/crud).

Conventions of the embedding:
* Python `str` is modeled as `List Char` (`Str`); timestamps are integers
  (seconds), `datetime.now`/`utcnow` become an explicit `now : Int` argument.
* `hashlib.sha256` (security.hash_value) is an external primitive and is
  passed as an explicit function argument `hash_value : Str → Str`.
* The Redis store is an association list from keys to entries; a stored value
  is tagged by its behavior under `json.loads`: `RVal.rjson d` is the
  `json.dumps` rendering of a token snapshot dict `d`, `RVal.rstr s` is a raw
  string that `json.loads` rejects (OTP hashes, corrupted cache data).
* `secrets.token_urlsafe`, the randomly drawn OTP code and the boolean result
  of `send_otp_email` are inputs of the modeled operations.
* `jose.jwt.encode` is modeled as a constructor wrapping the claim set.
-/

namespace TokenPortal

/-- Python `str`, modeled as a list of characters. -/
abbrev Str := List Char

/-- The `expires_at_iso` field of a cached token snapshot: either a
well-formed ISO-8601 timestamp string denoting the instant `t`, or a string
on which `datetime.fromisoformat` raises `ValueError`. -/
inductive ExpiresIso where
  | iso (t : Int)
  | malformed (s : Str)
deriving DecidableEq, Repr

/-- Python truthiness of an `expires_at_iso` value: an empty string is falsy,
every other string (well-formed ISO strings are never empty) is truthy. -/
def ExpiresIso.truthy : ExpiresIso → Bool
  | .iso _ => true
  | .malformed s => !s.isEmpty

/-- The denormalized token snapshot dict stored in Redis under
`apitoken:<hash>` (see dependencies.py and api_token_service.py). -/
structure TokenCacheData where
  user_id : Nat
  token_id : Nat
  is_revoked : Bool
  expires_at_iso : Option ExpiresIso
deriving DecidableEq, Repr

/-- A string value stored in Redis, tagged by its `json.loads` behavior:
`rjson d` is the `json.dumps` rendering of snapshot `d`; `rstr s` is a raw
string that is not valid JSON (OTP hashes, corrupted cache entries). -/
inductive RVal where
  | rstr (s : Str)
  | rjson (d : TokenCacheData)
deriving DecidableEq, Repr

/-- Python truthiness of a string fetched from Redis: the empty string is
falsy; a `json.dumps` output is never empty, hence truthy. -/
def RVal.truthy : RVal → Bool
  | .rstr s => !s.isEmpty
  | .rjson _ => true

/-- The result of `json.loads` on a stored value: a snapshot dict for a
`json.dumps` rendering, failure (`JSONDecodeError`) otherwise. -/
def json_loads : RVal → Option TokenCacheData
  | .rjson d => some d
  | .rstr _ => none

/-- One Redis entry: the stored value together with the `ex=` TTL argument
that was passed to `r.set` (redis_service.set_key). -/
structure REntry where
  value : RVal
  ex : Option Int
deriving DecidableEq, Repr

/-- The Redis store: an association list from keys to entries. -/
abbrev RedisState := List (Str × REntry)

/-- redis_service.delete_key: remove the binding of a key. -/
def delete_key (r : RedisState) (key : Str) : RedisState :=
  r.filter (fun p => p.1 ≠ key)

/-- redis_service.set_key: bind a key to a value with an optional TTL,
overwriting any previous binding. -/
def set_key (r : RedisState) (key : Str) (value : RVal) (expire_seconds : Option Int) :
    RedisState :=
  (key, ⟨value, expire_seconds⟩) :: delete_key r key

/-- redis_service.get_key: the value bound to a key, if any. -/
def get_key (r : RedisState) (key : Str) : Option RVal :=
  (r.find? (fun p => p.1 == key)).map (fun p => p.2.value)

/-- redis_service.get_api_token_redis_key: the cache key for a hashed token. -/
def get_api_token_redis_key (hashed_token : Str) : Str :=
  "apitoken:".toList ++ hashed_token

/-- otp_service: the Redis key storing the pending OTP hash for an email. -/
def get_otp_redis_key (email : Str) : Str :=
  "otp:".toList ++ email

/-! ## Durable store (db/models.py rows, db/crud.py operations) -/

/-- A row of the users table (db/models.py User). -/
structure User where
  id : Nat
  email : Str
  role : Str
  is_active : Bool
deriving DecidableEq, Repr

/-- A row of the api_tokens table (db/models.py ApiToken). -/
structure ApiToken where
  id : Nat
  name : Option Str
  hashed_token : Str
  token_preview : Str
  expires_at : Option Int
  last_used_at : Option Int
  is_revoked : Bool
  user_id : Nat
deriving DecidableEq, Repr

/-- A row of the api_usage_logs table (db/models.py ApiUsageLog), with the
fields of schemas.ApiUsageLogCreate. -/
structure ApiUsageLog where
  request_method : Str
  request_path : Str
  response_status_code : Nat
  client_ip_address : Option Str
  user_agent : Option Str
  error_message : Option String
  api_token_id : Option Nat
  user_id : Option Nat
deriving DecidableEq, Repr

/-- The durable relational store: the three tables, plus the next
auto-increment primary key values the store will assign. -/
structure Db where
  users : List User
  next_user_id : Nat
  api_tokens : List ApiToken
  next_token_id : Nat
  usage_logs : List ApiUsageLog
deriving DecidableEq, Repr

/-- schemas.ApiTokenCreate: requested name and expiry of a new token. -/
structure ApiTokenCreate where
  name : Option Str
  expires_at : Option Int
deriving DecidableEq, Repr

/-- crud.get_user_by_id. -/
def get_user_by_id (db : Db) (user_id : Nat) : Option User :=
  db.users.find? (fun u => u.id == user_id)

/-- crud.get_user_by_email. -/
def get_user_by_email (db : Db) (email : Str) : Option User :=
  db.users.find? (fun u => u.email == email)

/-- crud.create_user: append a user row with defaults role="user",
is_active=true; the id is assigned by the store. -/
def create_user (db : Db) (email : Str) : User × Db :=
  let u : User :=
    { id := db.next_user_id, email := email, role := "user".toList, is_active := true }
  (u, { db with users := db.users ++ [u], next_user_id := db.next_user_id + 1 })

/-- crud.get_or_create_user. -/
def get_or_create_user (db : Db) (email : Str) : User × Db :=
  match get_user_by_email db email with
  | some u => (u, db)
  | none => create_user db email

/-- crud.create_api_token: append a token row (is_revoked defaults to false,
last_used_at to null); the id is assigned by the store. -/
def create_api_token (db : Db) (token_in : ApiTokenCreate) (user_id : Nat)
    (hashed_token : Str) (token_preview : Str) : ApiToken × Db :=
  let t : ApiToken :=
    { id := db.next_token_id, name := token_in.name, hashed_token := hashed_token,
      token_preview := token_preview, expires_at := token_in.expires_at,
      last_used_at := none, is_revoked := false, user_id := user_id }
  (t, { db with api_tokens := db.api_tokens ++ [t], next_token_id := db.next_token_id + 1 })

/-- crud.get_api_token_by_id_and_user_id. -/
def get_api_token_by_id_and_user_id (db : Db) (token_id : Nat) (user_id : Nat) :
    Option ApiToken :=
  db.api_tokens.find? (fun t => t.id == token_id && t.user_id == user_id)

/-- crud.get_api_token_by_hashed_token. -/
def get_api_token_by_hashed_token (db : Db) (hashed_token : Str) : Option ApiToken :=
  db.api_tokens.find? (fun t => t.hashed_token == hashed_token)

/-- In-place mutation of an ORM token row: replace the row with the same id. -/
def updateToken (db : Db) (t : ApiToken) : Db :=
  { db with api_tokens := db.api_tokens.map (fun x => if x.id == t.id then t else x) }

/-- crud.revoke_api_token: set is_revoked on the given row unless it already
is revoked, in which case nothing is written and the row is returned as is. -/
def revoke_api_token (db : Db) (api_token : ApiToken) : ApiToken × Db :=
  if api_token.is_revoked then (api_token, db)
  else
    let t := { api_token with is_revoked := true }
    (t, updateToken db t)

/-- crud.create_api_usage_log: append a usage log row. -/
def create_api_usage_log (db : Db) (log_in : ApiUsageLog) : Db :=
  { db with usage_logs := db.usage_logs ++ [log_in] }

/-! ## Hashing and signing utility (core/security.py) -/

/-- The claim set encoded in a session JWT by otp_service (sub, user_id,
role). -/
structure TokenClaims where
  sub : Str
  user_id : Nat
  role : Str
deriving DecidableEq, Repr

/-- A signed JWT. jose.jwt.encode is an external library; the signed,
encoded form is modeled as a wrapper around the claim set it carries
(security.create_access_token). -/
structure EncodedJwt where
  claims : TokenClaims
deriving DecidableEq, Repr

/-- security.create_access_token, modeled as wrapping the claims. -/
def create_access_token (data : TokenClaims) : EncodedJwt :=
  ⟨data⟩

/-- schemas.JWTToken: the response carrying the access token. -/
structure JWTToken where
  access_token : EncodedJwt
  token_type : Str
deriving DecidableEq, Repr

/-! ## OTP flow controller (services/otp_service.py) -/

/-- settings.OTP_EXPIRE_MINUTES (core/config.py default). -/
def OTP_EXPIRE_MINUTES : Int := 5

/-- otp_service.request_otp_for_user. The randomly generated code
(generate_otp_code) and the boolean outcome of the external
email_service.send_otp_email call are inputs of the model. Returns the
success flag and the updated stores. -/
def request_otp_for_user (hash_value : Str → Str) (db : Db) (redis : RedisState)
    (email : Str) (plain_otp : Str) (email_sent : Bool) : Bool × Db × RedisState :=
  let userdb := get_or_create_user db email
  let hashed_otp := hash_value plain_otp
  let redis_key := get_otp_redis_key email
  let expire_seconds := OTP_EXPIRE_MINUTES * 60
  let redis1 := set_key redis redis_key (RVal.rstr hashed_otp) (some expire_seconds)
  if email_sent then (true, userdb.2, redis1)
  else (false, userdb.2, delete_key redis1 redis_key)

/-- otp_service.verify_otp_and_generate_jwt. Returns the minted JWT (or
nothing on any failure branch) and the updated Redis state; the durable
store is not written. -/
def verify_otp_and_generate_jwt (hash_value : Str → Str) (db : Db)
    (redis : RedisState) (email : Str) (otp : Str) : Option JWTToken × RedisState :=
  match get_user_by_email db email with
  | none => (none, redis)
  | some user =>
    let hashed_otp_to_verify := hash_value otp
    let redis_key := get_otp_redis_key email
    match get_key redis redis_key with
    | none => (none, redis)
    | some stored_hashed_otp =>
      if !stored_hashed_otp.truthy then (none, redis)
      else if stored_hashed_otp ≠ RVal.rstr hashed_otp_to_verify then (none, redis)
      else
        let redis1 := delete_key redis redis_key
        let token_data : TokenClaims :=
          { sub := user.email, user_id := user.id, role := user.role }
        (some { access_token := create_access_token token_data,
                token_type := "bearer".toList }, redis1)

/-! ## API token issuance service (services/api_token_service.py) -/

/-- api_token_service.API_TOKEN_PREFIX. -/
def apiTokenFixedPrefix : Str := "sk_live_".toList

/-- api_token_service.API_TOKEN_PREVIEW_RANDOM_CHARS. -/
def API_TOKEN_PREVIEW_RANDOM_CHARS : Nat := 4

/-- api_token_service.generate_secure_api_token_string; the output of
secrets.token_urlsafe(32) is the argument random_part. -/
def generate_secure_api_token_string (random_part : Str) : Str :=
  apiTokenFixedPrefix ++ random_part

/-- api_token_service.generate_token_preview. -/
def generate_token_preview (plain_token : Str) : Str :=
  if apiTokenFixedPrefix.isPrefixOf plain_token then
    let random_part_preview :=
      (plain_token.drop apiTokenFixedPrefix.length).take API_TOKEN_PREVIEW_RANDOM_CHARS
    apiTokenFixedPrefix ++ random_part_preview ++ "...".toList
  else
    plain_token.take (API_TOKEN_PREVIEW_RANDOM_CHARS + apiTokenFixedPrefix.length)
      ++ "...".toList

/-- schemas.ApiTokenValue: the one-time response carrying the plaintext. -/
structure ApiTokenValue where
  name : Option Str
  api_token : Str
  expires_at : Option Int
deriving DecidableEq, Repr

/-- api_token_service.create_new_api_token: generate, hash, preview, persist
the row, seed the Redis snapshot (TTL = remaining life when an expiry lies in
the future, otherwise no TTL), and return the plaintext once. -/
def create_new_api_token (hash_value : Str → Str) (now : Int) (random_part : Str)
    (db : Db) (redis : RedisState) (token_create_data : ApiTokenCreate) (user : User) :
    Option ApiTokenValue × Db × RedisState :=
  let plain_api_token := generate_secure_api_token_string random_part
  let hashed_api_token := hash_value plain_api_token
  let token_preview := generate_token_preview plain_api_token
  let created := create_api_token db token_create_data user.id hashed_api_token token_preview
  let db_token := created.1
  let redis_key := get_api_token_redis_key hashed_api_token
  let expires_at_iso : Option ExpiresIso := db_token.expires_at.map ExpiresIso.iso
  let redis_ttl_seconds : Option Int :=
    match db_token.expires_at with
    | none => none
    | some t => if now < t then some (t - now) else none
  let token_cache_data : TokenCacheData :=
    { user_id := db_token.user_id, token_id := db_token.id,
      is_revoked := db_token.is_revoked, expires_at_iso := expires_at_iso }
  let ex : Option Int :=
    match redis_ttl_seconds with
    | some s => if 0 < s then some s else none
    | none => none
  let redis1 := set_key redis redis_key (RVal.rjson token_cache_data) ex
  (some { name := db_token.name, api_token := plain_api_token,
          expires_at := db_token.expires_at }, created.2, redis1)

/-! ## Token validation gateway (core/dependencies.py validate_api_key) -/

/-- Outcome of validate_api_key: the validated data dict, the raised
HTTPException (status code and detail), or the uncaught TypeError raised at
dependencies.py line 141 when the timezone-naive expires_at read from the
durable row (models.py declares a plain DateTime column) is compared with
the timezone-aware now — no handler in the function catches it, so it
surfaces as a 500 response. -/
inductive ValidateResult where
  | success (token_id : Nat) (user_id : Nat)
  | httpError (status_code : Nat) (detail : String)
  | uncaughtTypeError
deriving DecidableEq, Repr

/-- The final checks of dependencies.validate_api_key on the resolved
snapshot (lines 156-186): revoked first, then expiry (deleting the Redis
entry on expiry, and on an unparsable date, which raises a 500). -/
def evaluateSnapshot (now : Int) (redis_key_for_token : Str) (d : TokenCacheData)
    (redis : RedisState) : ValidateResult × RedisState :=
  if d.is_revoked then
    (.httpError 403 "API Key has been revoked", redis)
  else
    match d.expires_at_iso with
    | none => (.success d.token_id d.user_id, redis)
    | some e =>
      if !e.truthy then (.success d.token_id d.user_id, redis)
      else
        match e with
        | .iso aware_expires_at =>
          if aware_expires_at ≤ now then
            (.httpError 403 "API Key has expired", delete_key redis redis_key_for_token)
          else (.success d.token_id d.user_id, redis)
        | .malformed _ =>
          (.httpError 500
            "API key validation error due to internal date format issue. Please try again later.",
           delete_key redis redis_key_for_token)

/-- dependencies.validate_api_key: hash the presented key, consult Redis
(deleting a corrupted entry and falling through on parse failure), fall back
to the durable store on miss (re-seeding the cache with a bounded TTL), then
evaluate the resolved snapshot. Returns the outcome and the final Redis
state; the durable store is not written. -/
def validate_api_key (hash_value : Str → Str) (now : Int)
    (api_key_value : Option Str) (redis : RedisState) (db : Db) :
    ValidateResult × RedisState :=
  match api_key_value with
  | none => (.httpError 401 "Not authenticated or API key missing", redis)
  | some key =>
    if key.isEmpty then (.httpError 401 "Not authenticated or API key missing", redis)
    else
      let hashed_api_key_to_verify := hash_value key
      let redis_key_for_token := get_api_token_redis_key hashed_api_key_to_verify
      let cached_data_str := get_key redis redis_key_for_token
      let parsed : Option TokenCacheData × RedisState :=
        match cached_data_str with
        | some v =>
          if v.truthy then
            match json_loads v with
            | some d => (some d, redis)
            | none => (none, delete_key redis redis_key_for_token)
          else (none, redis)
        | none => (none, redis)
      match parsed.1 with
      | some token_data_to_process =>
        evaluateSnapshot now redis_key_for_token token_data_to_process parsed.2
      | none =>
        let redis1 := parsed.2
        match get_api_token_by_hashed_token db hashed_api_key_to_verify with
        | none => (.httpError 401 "Invalid API Key or API Key expired", redis1)
        | some token_db_record =>
          let token_data_for_cache : TokenCacheData :=
            { token_id := token_db_record.id, user_id := token_db_record.user_id,
              is_revoked := token_db_record.is_revoked,
              expires_at_iso := token_db_record.expires_at.map ExpiresIso.iso }
          match token_db_record.expires_at with
          | some _ =>
            -- dependencies.py line 141: the row's naive expires_at is compared
            -- with the aware now; Python raises TypeError, which none of the
            -- handlers in validate_api_key catches. The cache write and the
            -- revoked/expired/success checks below are never reached.
            (.uncaughtTypeError, redis1)
          | none =>
            let cache_expiry_seconds : Int := 3600
            let redis2 :=
              if 0 < cache_expiry_seconds then
                set_key redis1 redis_key_for_token (RVal.rjson token_data_for_cache)
                  (some cache_expiry_seconds)
              else redis1
            evaluateSnapshot now redis_key_for_token token_data_for_cache redis2

/-! ## Owner-scoped revoke endpoint (api/v1/endpoints/tokens.py) -/

/-- Outcome of the revoke endpoint: the (updated) token metadata, or the 404
raised when the token does not exist or is not owned by the caller. -/
inductive RevokeResult where
  | ok (token : ApiToken)
  | notFound
deriving DecidableEq, Repr

/-- The Redis half of tokens.revoke_user_api_token after the durable write:
update or delete the snapshot under the token key — delete it when the
recorded expiry is already past (or the entry does not parse), otherwise
overwrite it with is_revoked true preserving the remaining lifetime; a
missing entry is only logged. -/
def revokeCacheUpdate (redis : RedisState) (redis_key : Str) (now : Int) : RedisState :=
  match get_key redis redis_key with
  | none => redis
  | some cached_data_str =>
    if !cached_data_str.truthy then redis
    else
      match json_loads cached_data_str with
      | none => delete_key redis redis_key
      | some cached =>
        let token_cache_data := { cached with is_revoked := true }
        match token_cache_data.expires_at_iso with
        | some e =>
          if e.truthy then
            match e with
            | .iso aware_expires_at =>
              if aware_expires_at ≤ now then delete_key redis redis_key
              else
                let redis_ttl_seconds := aware_expires_at - now
                set_key redis redis_key (RVal.rjson token_cache_data)
                  (if 0 < redis_ttl_seconds then some redis_ttl_seconds else none)
            | .malformed _ => delete_key redis redis_key
          else set_key redis redis_key (RVal.rjson token_cache_data) none
        | none => set_key redis redis_key (RVal.rjson token_cache_data) none

/-- tokens.revoke_user_api_token: look the token up scoped to the caller,
return it unchanged if already revoked, otherwise mark the durable row
revoked and update or delete the matching Redis snapshot. -/
def revoke_user_api_token (db : Db) (redis : RedisState) (token_id : Nat)
    (current_user : User) (now : Int) : RevokeResult × Db × RedisState :=
  match get_api_token_by_id_and_user_id db token_id current_user.id with
  | none => (.notFound, db, redis)
  | some db_token =>
    if db_token.is_revoked then (.ok db_token, db, redis)
    else
      let revoked := revoke_api_token db db_token
      (.ok revoked.1, revoked.2,
       revokeCacheUpdate redis (get_api_token_redis_key revoked.1.hashed_token) now)

/-! ## Request-scoped middleware (core/middleware.py) -/

/-- settings.API_V1_STR (core/config.py default). -/
def API_V1_STR : Str := "/api/v1".toList

/-- The protected public path root used by the middleware. -/
def publicApiPathRoot : Str := API_V1_STR ++ "/public".toList

/-- Python str.strip(), restricted to whitespace. -/
def pyStrip (s : Str) : Str :=
  ((s.dropWhile Char.isWhitespace).reverse.dropWhile Char.isWhitespace).reverse

/-- The relevant parts of an inbound request seen by the middleware. -/
structure MwRequest where
  method : Str
  path : Str
  authorization : Option Str
  x_api_key : Option Str
  client_ip : Option Str
  user_agent : Option Str
deriving DecidableEq, Repr

/-- What the downstream handler (call_next) does once the middleware lets
the request through: return a response, or raise. An HTTPException or any
other exception raised below propagates out of call_next into the except
branches of dispatch. -/
inductive DownstreamOutcome where
  | ok (status_code : Nat)
  | raisesHttp (status_code : Nat) (detail : String)
  | raisesExc (msg : String)
deriving DecidableEq, Repr

/-- Outcome of ApiTokenValidationMiddleware.dispatch: the request was not on
the protected surface and was passed through untouched; the middleware
itself answered (a rejection or the generic 500 body); the downstream
response was returned; or a downstream HTTPException was re-raised. -/
inductive MwResult where
  | passthrough
  | response (status_code : Nat) (body : String)
  | handlerResponse (status_code : Nat)
  | reraisedHttp (status_code : Nat) (detail : String)
deriving DecidableEq, Repr

/-- Python truthiness of an optional header value: absent or empty is falsy. -/
def optTruthy : Option Str → Bool
  | none => false
  | some s => !s.isEmpty

/-- Token extraction of the middleware: the dedicated X-API-Key header when
present and non-empty, else a Bearer value stripped from the Authorization
header. -/
def extractPlainToken (request : MwRequest) : Option Str :=
  if optTruthy request.x_api_key then request.x_api_key
  else
    match request.authorization with
    | some a =>
      if "Bearer ".toList.isPrefixOf a then some (pyStrip (a.drop 7)) else none
    | none => none

/-- ApiTokenValidationMiddleware.dispatch: on the protected surface, extract
the presented token (the dedicated X-API-Key header first, else a Bearer
header), validate it directly against the durable store, write usage log
rows, update last_used_at on success, require the owning user to be active,
then run the downstream handler inside the try block. -/
def dispatch (hash_value : Str → Str) (now : Int) (db : Db) (request : MwRequest)
    (downstream : DownstreamOutcome) : MwResult × Db :=
  if !publicApiPathRoot.isPrefixOf request.path then (.passthrough, db)
  else
    let log_data : ApiUsageLog :=
      { request_method := request.method, request_path := request.path,
        response_status_code := 500, client_ip_address := request.client_ip,
        user_agent := request.user_agent, error_message := none,
        api_token_id := none, user_id := none }
    let plain_token : Option Str := extractPlainToken request
    if !optTruthy plain_token then
      (.response 401 "API token required.",
       create_api_usage_log db
         { log_data with error_message := some "API token not provided.",
                         response_status_code := 401 })
    else
      let hashed_provided_token := hash_value (plain_token.getD [])
      match get_api_token_by_hashed_token db hashed_provided_token with
      | none =>
        (.response 401 "Invalid API token.",
         create_api_usage_log db
           { log_data with error_message := some "Invalid API token (not found).",
                           response_status_code := 401 })
      | some db_token =>
        let log_data1 :=
          { log_data with api_token_id := some db_token.id,
                          user_id := some db_token.user_id }
        if db_token.is_revoked then
          (.response 403 "API token has been revoked.",
           create_api_usage_log db
             { log_data1 with error_message := some "API token has been revoked.",
                              response_status_code := 403 })
        else if (db_token.expires_at.map (fun t => decide (t < now))).getD false then
          (.response 403 "API token has expired.",
           create_api_usage_log db
             { log_data1 with error_message := some "API token has expired.",
                              response_status_code := 403 })
        else
          let db1 := updateToken db { db_token with last_used_at := some now }
          let current_user := get_user_by_id db1 db_token.user_id
          if !((current_user.map User.is_active).getD false) then
            (.response 403 "User account issue.",
             create_api_usage_log db1
               { log_data1 with
                   error_message :=
                     some "User associated with API token is inactive or not found.",
                   response_status_code := 403 })
          else
            let db2 :=
              create_api_usage_log db1
                { log_data1 with response_status_code := 200, error_message := none }
            match downstream with
            | .ok s => (.handlerResponse s, db2)
            | .raisesHttp s det =>
              (.reraisedHttp s det,
               create_api_usage_log db2
                 { log_data1 with response_status_code := s,
                                  error_message := some det })
            | .raisesExc msg =>
              (.response 500 "Internal Server Error",
               create_api_usage_log db2
                 { log_data1 with response_status_code := 500,
                                  error_message :=
                                    some ("Internal server error: " ++ msg) })

/-! ## Derived observations and concrete example states -/

/-- The durable row carrying a given primary key, if any. -/
def tokenById (db : Db) (i : Nat) : Option ApiToken :=
  db.api_tokens.find? (fun t => t.id == i)

/-- Whether the downstream handler raises out of call_next. -/
def dsRaises : DownstreamOutcome → Bool
  | .ok _ => false
  | .raisesHttp _ _ => true
  | .raisesExc _ => true

/-- Whether the middleware validation of a request against a store reaches
the downstream handler: observed by running dispatch with a handler that
returns normally. -/
def middlewareValidationSucceeds (hash_value : Str → Str) (now : Int) (db : Db)
    (req : MwRequest) : Bool :=
  match (dispatch hash_value now db req (.ok 200)).1 with
  | .handlerResponse _ => true
  | _ => false

/-- A concrete stand-in for the external SHA-256 digest function. -/
def exHash : Str → Str := fun s => 'H' :: s

/-- A concrete user row. -/
def exUser : User :=
  { id := 1, email := "a@x".toList, role := "user".toList, is_active := true }

/-- A concrete already-revoked token row owned by exUser. -/
def exToken : ApiToken :=
  { id := 1, name := none, hashed_token := exHash "sk_live_tok1".toList,
    token_preview := "sk_live_abcd...".toList, expires_at := none,
    last_used_at := none, is_revoked := true, user_id := 1 }

/-- A concrete durable store holding exUser and nothing else. -/
def exDb : Db :=
  { users := [exUser], next_user_id := 2, api_tokens := [],
    next_token_id := 1, usage_logs := [] }

/-- A concrete durable store holding exUser and the revoked exToken. -/
def exDbTok : Db :=
  { users := [exUser], next_user_id := 2, api_tokens := [exToken],
    next_token_id := 2, usage_logs := [] }

/-- A concrete Redis state holding the pending OTP hash for exUser. -/
def exOtpRedis : RedisState :=
  [(get_otp_redis_key "a@x".toList, ⟨RVal.rstr (exHash "12345".toList), some 300⟩)]

/-- A concrete request on the protected public surface presenting a token
through the dedicated header. -/
def exReq : MwRequest :=
  { method := "GET".toList, path := "/api/v1/public/e".toList,
    authorization := none, x_api_key := some "sk_live_tok1".toList,
    client_ip := some "1.2.3.4".toList, user_agent := some "ua".toList }

/-- The cache key of the concrete token sk_live_tok1 under exHash. -/
def exCacheKey : Str := get_api_token_redis_key (exHash "sk_live_tok1".toList)

/-- A Redis state whose entry for sk_live_tok1 is the empty string: not
valid JSON, and falsy for Python. -/
def exCorruptEmptyRedis : RedisState := [(exCacheKey, ⟨RVal.rstr [], some 100⟩)]

/-- A Redis state whose entry for sk_live_tok1 is a non-empty string that is
not valid JSON. -/
def exCorruptRedis : RedisState :=
  [(exCacheKey, ⟨RVal.rstr "garbage".toList, some 100⟩)]

/-- A Redis state caching one snapshot for sk_live_tok1. -/
def cacheRedis (d : TokenCacheData) : RedisState := [(exCacheKey, ⟨RVal.rjson d, none⟩)]

/-- A revoked (and also expired) snapshot. -/
def exSnapRevoked : TokenCacheData :=
  { user_id := 1, token_id := 1, is_revoked := true,
    expires_at_iso := some (ExpiresIso.iso (-5)) }

/-- An unrevoked but expired snapshot. -/
def exSnapExpired : TokenCacheData :=
  { user_id := 1, token_id := 1, is_revoked := false,
    expires_at_iso := some (ExpiresIso.iso (-5)) }

/-- An unrevoked snapshot without expiry. -/
def exSnapLive : TokenCacheData :=
  { user_id := 1, token_id := 1, is_revoked := false, expires_at_iso := none }

/-- An unrevoked snapshot whose expiry lies in the future. -/
def exSnapFuture : TokenCacheData :=
  { user_id := 1, token_id := 1, is_revoked := false,
    expires_at_iso := some (ExpiresIso.iso 100) }

/-- A concrete unrevoked but expired token row for sk_live_tok1. -/
def exTokenExpired : ApiToken :=
  { id := 2, name := none, hashed_token := exHash "sk_live_tok1".toList,
    token_preview := "sk_live_abcd...".toList, expires_at := some (-5),
    last_used_at := none, is_revoked := false, user_id := 1 }

/-- A concrete durable store holding exUser and the expired row. -/
def exDbExp : Db :=
  { users := [exUser], next_user_id := 2, api_tokens := [exTokenExpired],
    next_token_id := 3, usage_logs := [] }

/-- A concrete live (unrevoked, non-expiring) token row for sk_live_tok1. -/
def exTokenLive : ApiToken :=
  { id := 3, name := none, hashed_token := exHash "sk_live_tok1".toList,
    token_preview := "sk_live_abcd...".toList, expires_at := none,
    last_used_at := none, is_revoked := false, user_id := 1 }

/-- A concrete durable store holding exUser and the live row. -/
def exDbLive : Db :=
  { users := [exUser], next_user_id := 2, api_tokens := [exTokenLive],
    next_token_id := 4, usage_logs := [] }

/-- A concrete revoked token row for sk_live_tok1 that also carries an
expiry date. -/
def exTokenRevokedExp : ApiToken :=
  { id := 4, name := none, hashed_token := exHash "sk_live_tok1".toList,
    token_preview := "sk_live_abcd...".toList, expires_at := some (-5),
    last_used_at := none, is_revoked := true, user_id := 1 }

/-- A concrete durable store holding exUser and the revoked expiring row. -/
def exDbRevExp : Db :=
  { users := [exUser], next_user_id := 2, api_tokens := [exTokenRevokedExp],
    next_token_id := 5, usage_logs := [] }

/-- exUser with the active flag cleared. -/
def exUserInactive : User :=
  { id := 1, email := "a@x".toList, role := "user".toList, is_active := false }

/-- exDbLive with the owner deactivated: same api_tokens table, the owning
user row differs only in is_active. -/
def exDbLiveInactive : Db :=
  { users := [exUserInactive], next_user_id := 2, api_tokens := [exTokenLive],
    next_token_id := 4, usage_logs := [] }

/-! ## Store lemmas -/

theorem get_key_set_key_same (r : RedisState) (k : Str) (v : RVal) (ex : Option Int) :
    get_key (set_key r k v ex) k = some v := by
  simp [get_key, set_key, List.find?_cons_of_pos]

theorem get_key_delete_key_same (r : RedisState) (k : Str) :
    get_key (delete_key r k) k = none := by
  simp [get_key, delete_key, List.find?_eq_none, List.mem_filter]

@[simp]
theorem api_tokens_create_api_usage_log (db : Db) (l : ApiUsageLog) :
    (create_api_usage_log db l).api_tokens = db.api_tokens := rfl

@[simp]
theorem users_create_api_usage_log (db : Db) (l : ApiUsageLog) :
    (create_api_usage_log db l).users = db.users := rfl

@[simp]
theorem usage_logs_updateToken (db : Db) (t : ApiToken) :
    (updateToken db t).usage_logs = db.usage_logs := rfl

@[simp]
theorem usage_logs_create_api_usage_log (db : Db) (l : ApiUsageLog) :
    (create_api_usage_log db l).usage_logs = db.usage_logs ++ [l] := rfl

theorem tokenById_updateToken (db : Db) (t : ApiToken) (i : Nat) :
    tokenById (updateToken db t) i =
      (tokenById db i).map (fun y => if y.id == t.id then t else y) := by
  unfold tokenById updateToken
  rw [List.find?_map]
  have hp : ((fun x : ApiToken => x.id == i) ∘ (fun y => if y.id == t.id then t else y))
      = fun y : ApiToken => y.id == i := by
    funext y
    by_cases h : y.id = t.id
    · simp [Function.comp, h]
    · simp [Function.comp, h]
  rw [hp]

theorem tokenById_mem (db : Db) (i : Nat) (old : ApiToken)
    (h : tokenById db i = some old) : old ∈ db.api_tokens ∧ old.id = i := by
  refine ⟨List.mem_of_find?_eq_some h, ?_⟩
  have := List.find?_some h
  simpa using this

theorem mem_of_get_by_hash (db : Db) (h : Str) (tok : ApiToken)
    (hf : get_api_token_by_hashed_token db h = some tok) : tok ∈ db.api_tokens :=
  List.mem_of_find?_eq_some hf

theorem eq_of_mem_mem_pairwise_ne {l : List ApiToken} {a b : ApiToken}
    (hp : l.Pairwise (fun x y => x.id ≠ y.id)) (ha : a ∈ l) (hb : b ∈ l)
    (hid : a.id = b.id) : a = b := by
  induction l with
  | nil => cases ha
  | cons c l ih =>
    rcases List.pairwise_cons.mp hp with ⟨hc, hl⟩
    rcases List.mem_cons.mp ha with rfl | ha2
    · rcases List.mem_cons.mp hb with rfl | hb2
      · rfl
      · exact absurd hid (hc b hb2)
    · rcases List.mem_cons.mp hb with rfl | hb2
      · exact absurd hid.symm (hc a ha2)
      · exact ih hl ha2 hb2

/-- The durable store coming out of the middleware is either unchanged on the
api_tokens table, or an unrevoked row had its last_used_at stamped. -/
theorem dispatch_api_tokens (hash_value : Str → Str) (now : Int) (db : Db)
    (req : MwRequest) (ds : DownstreamOutcome) :
    (dispatch hash_value now db req ds).2.api_tokens = db.api_tokens ∨
    ∃ tok, tok ∈ db.api_tokens ∧ tok.is_revoked = false ∧
      (dispatch hash_value now db req ds).2.api_tokens =
        (updateToken db { tok with last_used_at := some now }).api_tokens := by
  simp only [dispatch]
  repeat' split
  all_goals try (left; simp; done)
  all_goals right
  all_goals
    exact ⟨_, mem_of_get_by_hash _ _ _ (by assumption),
      Bool.eq_false_iff.mpr (by assumption), by simp⟩

/-- Any failure hypothesis on the stored value propagates: when the value
stored under otp:email is a raw string other than the hash of the presented
code, verification fails. -/
theorem verify_fails_of_stored_ne (hash_value : Str → Str) (db : Db)
    (redis : RedisState) (email code v : Str)
    (hst : get_key redis (get_otp_redis_key email) = some (RVal.rstr v))
    (hvne : v ≠ hash_value code) :
    (verify_otp_and_generate_jwt hash_value db redis email code).1 = none := by
  rcases hu : get_user_by_email db email with _ | u
  · simp [verify_otp_and_generate_jwt, hu]
  · by_cases hz : v = []
    · simp [verify_otp_and_generate_jwt, hu, hst, RVal.truthy, hz]
    · simp [verify_otp_and_generate_jwt, hu, hst, RVal.truthy, hz, hvne]

theorem tokenById_congr {db1 db2 : Db} (i : Nat)
    (h : db1.api_tokens = db2.api_tokens) : tokenById db1 i = tokenById db2 i := by
  unfold tokenById
  rw [h]

/-- Marking any row revoked never clears the revoked flag of a row that
already carries it. -/
theorem revoke_api_token_mono (db : Db) (t : ApiToken) (i : Nat) (old : ApiToken)
    (hfind : tokenById db i = some old) (hrev : old.is_revoked = true) :
    ∃ x, tokenById (revoke_api_token db t).2 i = some x ∧ x.is_revoked = true := by
  by_cases ht : t.is_revoked
  · exact ⟨old, by simpa [revoke_api_token, ht] using hfind, hrev⟩
  · simp only [revoke_api_token, ht, Bool.false_eq_true, if_false]
    rw [tokenById_updateToken, hfind]
    refine ⟨_, rfl, ?_⟩
    by_cases h2 : old.id = t.id <;> simp [h2, hrev]

theorem isEmpty_false_of_ne_nil {key : Str} (hkey : key ≠ []) :
    key.isEmpty = false := by
  rw [Bool.eq_false_iff]
  simpa [List.isEmpty_iff] using hkey

theorem get_user_by_id_updateToken (db : Db) (t : ApiToken) (uid : Nat) :
    get_user_by_id (updateToken db t) uid = get_user_by_id db uid := rfl

/-! ## Claim theorems -/

/-- C2: OTP single use. With a user on file for the email and the correct
unexpired code hash stored under otp:email, verify_otp_and_generate_jwt
succeeds, mints the JWT carrying exactly (sub = email, user_id, role), and
leaves the store with the otp entry deleted, so running the same
verification again against the resulting store fails. -/
theorem c2_otp_single_use (hash_value : Str → Str) (db : Db) (redis : RedisState)
    (email code : Str) (u : User)
    (huser : get_user_by_email db email = some u)
    (hstored : get_key redis (get_otp_redis_key email) =
      some (RVal.rstr (hash_value code)))
    (hne : hash_value code ≠ []) :
    verify_otp_and_generate_jwt hash_value db redis email code =
      (some { access_token :=
                create_access_token { sub := u.email, user_id := u.id, role := u.role },
              token_type := "bearer".toList },
       delete_key redis (get_otp_redis_key email)) ∧
    (verify_otp_and_generate_jwt hash_value db
        (delete_key redis (get_otp_redis_key email)) email code).1 = none := by
  constructor
  · simp [verify_otp_and_generate_jwt, huser, hstored, RVal.truthy, hne]
  · simp [verify_otp_and_generate_jwt, huser, get_key_delete_key_same]

/-- Witness for c2_otp_single_use at a concrete state. -/
theorem c2_witness :
    verify_otp_and_generate_jwt exHash exDb exOtpRedis "a@x".toList "12345".toList =
      (some { access_token :=
                create_access_token
                  { sub := "a@x".toList, user_id := 1, role := "user".toList },
              token_type := "bearer".toList },
       delete_key exOtpRedis (get_otp_redis_key "a@x".toList)) ∧
    (verify_otp_and_generate_jwt exHash exDb
      (delete_key exOtpRedis (get_otp_redis_key "a@x".toList))
      "a@x".toList "12345".toList).1 = none :=
  c2_otp_single_use exHash exDb exOtpRedis "a@x".toList "12345".toList exUser
    (by decide) (by decide) (by decide)

/-- C8: no orphaned pending OTP on dispatch failure. When send_otp_email
reports failure, request_otp_for_user reports failure and the resulting
store holds no entry under otp:email. -/
theorem c8_no_orphan_otp_on_dispatch_failure (hash_value : Str → Str) (db : Db)
    (redis : RedisState) (email code : Str) :
    (request_otp_for_user hash_value db redis email code false).1 = false ∧
    get_key (request_otp_for_user hash_value db redis email code false).2.2
      (get_otp_redis_key email) = none := by
  constructor
  · simp [request_otp_for_user]
  · simp [request_otp_for_user, get_key_delete_key_same]

/-- C7: a second OTP request overwrites the pending entry. After two
successful requests, the stored value under otp:email is the hash of the
second code, and when the two hashes differ the first code no longer
verifies. -/
theorem c7_second_request_overwrites (hash_value : Str → Str) (db : Db)
    (redis : RedisState) (email code1 code2 : Str) :
    get_key
      (request_otp_for_user hash_value
        (request_otp_for_user hash_value db redis email code1 true).2.1
        (request_otp_for_user hash_value db redis email code1 true).2.2
        email code2 true).2.2
      (get_otp_redis_key email) = some (RVal.rstr (hash_value code2)) ∧
    (hash_value code1 ≠ hash_value code2 →
      (verify_otp_and_generate_jwt hash_value
        (request_otp_for_user hash_value
          (request_otp_for_user hash_value db redis email code1 true).2.1
          (request_otp_for_user hash_value db redis email code1 true).2.2
          email code2 true).2.1
        (request_otp_for_user hash_value
          (request_otp_for_user hash_value db redis email code1 true).2.1
          (request_otp_for_user hash_value db redis email code1 true).2.2
          email code2 true).2.2
        email code1).1 = none) := by
  have hkey : get_key
      (request_otp_for_user hash_value
        (request_otp_for_user hash_value db redis email code1 true).2.1
        (request_otp_for_user hash_value db redis email code1 true).2.2
        email code2 true).2.2
      (get_otp_redis_key email) = some (RVal.rstr (hash_value code2)) := by
    simp [request_otp_for_user, get_key_set_key_same]
  exact ⟨hkey, fun hne =>
    verify_fails_of_stored_ne hash_value _ _ email code1 (hash_value code2) hkey
      (fun heq => hne heq.symm)⟩

/-- C9: the preview of a generated token is the fixed public marker followed
by the first four characters of the random part and three dots, and the
preview of any plaintext is a function of its leading
(marker length + 4) characters only. -/
theorem c9_preview_locality (random_part p q : Str) :
    generate_token_preview (generate_secure_api_token_string random_part) =
      apiTokenFixedPrefix ++ random_part.take API_TOKEN_PREVIEW_RANDOM_CHARS
        ++ "...".toList ∧
    (p.take (apiTokenFixedPrefix.length + API_TOKEN_PREVIEW_RANDOM_CHARS) =
        q.take (apiTokenFixedPrefix.length + API_TOKEN_PREVIEW_RANDOM_CHARS) →
      generate_token_preview p = generate_token_preview q) := by
  constructor
  · simp [generate_token_preview, generate_secure_api_token_string, List.drop_left]
  · intro h
    have h12 : p.take 12 = q.take 12 := h
    have e8 : p.take 8 = q.take 8 := by
      have h8 := congrArg (List.take 8) h12
      simpa [List.take_take] using h8
    have hcond : apiTokenFixedPrefix.isPrefixOf p = apiTokenFixedPrefix.isPrefixOf q := by
      rw [Bool.eq_iff_iff]
      simp only [List.isPrefixOf_iff_prefix, List.prefix_iff_eq_take]
      have hl : apiTokenFixedPrefix.length = 8 := rfl
      rw [hl, e8]
    have hdrop : (p.drop apiTokenFixedPrefix.length).take API_TOKEN_PREVIEW_RANDOM_CHARS
        = (q.drop apiTokenFixedPrefix.length).take API_TOKEN_PREVIEW_RANDOM_CHARS := by
      show (p.drop 8).take 4 = (q.drop 8).take 4
      have d1 := congrArg (List.drop 8) h12
      simpa [List.drop_take] using d1
    have htake : p.take (API_TOKEN_PREVIEW_RANDOM_CHARS + apiTokenFixedPrefix.length)
        = q.take (API_TOKEN_PREVIEW_RANDOM_CHARS + apiTokenFixedPrefix.length) := by
      show p.take 12 = q.take 12
      exact h12
    simp only [generate_token_preview, hcond]
    by_cases hq : apiTokenFixedPrefix.isPrefixOf q = true
    · rw [if_pos hq, if_pos hq, hdrop]
    · rw [if_neg hq, if_neg hq, htake]

/-- C1: issuance/validation round trip. When issuing succeeds with a token
whose requested expiry is absent or still in the future, the durable row is
appended with the next store-assigned id for the owner, and validating the
returned plaintext immediately succeeds with exactly that row id and owner
id, the same pair recorded at issuance. -/
theorem c1_round_trip (hash_value : Str → Str) (now : Int) (random_part : Str)
    (db : Db) (redis : RedisState) (tin : ApiTokenCreate) (u : User)
    (hexp : tin.expires_at = none ∨ ∃ t, tin.expires_at = some t ∧ now < t) :
    ∃ v row,
      (create_new_api_token hash_value now random_part db redis tin u).1 = some v ∧
      (create_new_api_token hash_value now random_part db redis tin u).2.1.api_tokens
        = db.api_tokens ++ [row] ∧
      row.id = db.next_token_id ∧ row.user_id = u.id ∧
      validate_api_key hash_value now (some v.api_token)
          (create_new_api_token hash_value now random_part db redis tin u).2.2
          (create_new_api_token hash_value now random_part db redis tin u).2.1 =
        (.success row.id row.user_id,
         (create_new_api_token hash_value now random_part db redis tin u).2.2) := by
  have hp : generate_secure_api_token_string random_part ≠ [] := by
    intro h
    exact absurd (List.append_eq_nil.mp h).1 (by decide)
  have hke := isEmpty_false_of_ne_nil hp
  refine ⟨{ name := tin.name,
            api_token := generate_secure_api_token_string random_part,
            expires_at := tin.expires_at },
          { id := db.next_token_id, name := tin.name,
            hashed_token := hash_value (generate_secure_api_token_string random_part),
            token_preview :=
              generate_token_preview (generate_secure_api_token_string random_part),
            expires_at := tin.expires_at, last_used_at := none, is_revoked := false,
            user_id := u.id }, rfl, rfl, rfl, rfl, ?_⟩
  rcases hexp with hnone | ⟨texp, hsome, hlt⟩
  · simp only [create_new_api_token, create_api_token, hnone]
    simp [validate_api_key, hke, get_key_set_key_same, json_loads, RVal.truthy,
      evaluateSnapshot, hnone]
  · simp only [create_new_api_token, create_api_token, hsome]
    simp [validate_api_key, hke, get_key_set_key_same, json_loads, RVal.truthy,
      evaluateSnapshot, hsome, ExpiresIso.truthy, not_le.mpr hlt]

/-- Witness for c1_round_trip: a token issued to exUser with no expiry
validates immediately. -/
theorem c1_witness :
    ∃ v row,
      (create_new_api_token exHash 0 "r".toList exDb [] ⟨none, none⟩ exUser).1
        = some v ∧
      (create_new_api_token exHash 0 "r".toList exDb [] ⟨none, none⟩ exUser).2.1.api_tokens
        = exDb.api_tokens ++ [row] ∧
      row.id = exDb.next_token_id ∧ row.user_id = exUser.id ∧
      validate_api_key exHash 0 (some v.api_token)
          (create_new_api_token exHash 0 "r".toList exDb [] ⟨none, none⟩ exUser).2.2
          (create_new_api_token exHash 0 "r".toList exDb [] ⟨none, none⟩ exUser).2.1 =
        (.success row.id row.user_id,
         (create_new_api_token exHash 0 "r".toList exDb [] ⟨none, none⟩ exUser).2.2) :=
  c1_round_trip exHash 0 "r".toList exDb [] ⟨none, none⟩ exUser (Or.inl rfl)

/-- C3: evaluation of the code at the failing input — the claim is right
and the code has a bug. On a cache miss, a durable row carrying any expiry
date never reaches the revoked/expired/success evaluation: the naive
expires_at read from the row is compared with the aware now (dependencies.py
line 141) and Python raises a TypeError no handler in the function catches,
surfacing as a 500 — where the claim (and the spec scenario) expects
Failure(Expired) for an expired unrevoked row, and Failure(Revoked) for a
revoked one. The claimed fixed order is exercised where the code does reach
it: on cache-hit snapshots (revoked first even when also expired; expired
deletes the entry; otherwise success) and on durable rows without expiry. -/
theorem c3_db_fallback_type_error :
    exTokenExpired.is_revoked = false ∧
    exTokenExpired.expires_at = some (-5) ∧
    get_key [] exCacheKey = none ∧
    validate_api_key exHash 0 (some "sk_live_tok1".toList) [] exDbExp =
      (.uncaughtTypeError, []) ∧
    validate_api_key exHash 0 (some "sk_live_tok1".toList) [] exDbRevExp =
      (.uncaughtTypeError, []) ∧
    validate_api_key exHash 0 (some "sk_live_tok1".toList)
        (cacheRedis exSnapRevoked) exDb =
      (.httpError 403 "API Key has been revoked", cacheRedis exSnapRevoked) ∧
    validate_api_key exHash 0 (some "sk_live_tok1".toList)
        (cacheRedis exSnapExpired) exDb =
      (.httpError 403 "API Key has expired",
       delete_key (cacheRedis exSnapExpired) exCacheKey) ∧
    validate_api_key exHash 0 (some "sk_live_tok1".toList)
        (cacheRedis exSnapLive) exDb =
      (.success 1 1, cacheRedis exSnapLive) ∧
    validate_api_key exHash 0 (some "sk_live_tok1".toList)
        (cacheRedis exSnapFuture) exDb =
      (.success 1 1, cacheRedis exSnapFuture) ∧
    (validate_api_key exHash 0 (some "sk_live_tok1".toList) [] exDbLive).1 =
      .success 3 1 :=
  ⟨by decide, by decide, by decide, by decide, by decide, by decide, by decide,
   by decide, by decide, by decide⟩

/-- Counterexample to C5 as stated: an ephemeral entry holding the empty
string, which json.loads rejects, is treated as a miss (the durable store is
consulted, yielding the generic 401) but the corrupted key is NOT deleted:
it is still present, unchanged, in the final Redis state. -/
theorem c5_counterexample :
    json_loads (RVal.rstr []) = none ∧
    validate_api_key exHash 0 (some "sk_live_tok1".toList) exCorruptEmptyRedis exDb =
      (.httpError 401 "Invalid API Key or API Key expired", exCorruptEmptyRedis) ∧
    get_key exCorruptEmptyRedis exCacheKey = some (RVal.rstr []) := by
  refine ⟨rfl, ?_, by decide⟩
  decide

/-- C5 (amended): for every ephemeral entry whose stored value is a
NON-EMPTY string that json.loads rejects, validate_api_key behaves exactly
as on a cache miss over the store with the corrupted key deleted (so the
corruption is never surfaced as a distinct failure and the durable store is
the fallback), and the final Redis state no longer holds the corrupted
string under the key: it holds nothing, or a freshly rebuilt snapshot. An
entry holding the empty string is treated as a miss but left undeleted. -/
theorem c5_corrupt_cache_self_heal (hash_value : Str → Str) (now : Int)
    (key : Str) (redis : RedisState) (db : Db) (s : Str)
    (hkey : key ≠ []) (hs : s ≠ [])
    (hcorrupt : get_key redis (get_api_token_redis_key (hash_value key)) =
      some (RVal.rstr s)) :
    validate_api_key hash_value now (some key) redis db =
      validate_api_key hash_value now (some key)
        (delete_key redis (get_api_token_redis_key (hash_value key))) db ∧
    (get_key (validate_api_key hash_value now (some key) redis db).2
        (get_api_token_redis_key (hash_value key)) = none ∨
     ∃ d, get_key (validate_api_key hash_value now (some key) redis db).2
        (get_api_token_redis_key (hash_value key)) = some (RVal.rjson d)) := by
  have hke := isEmpty_false_of_ne_nil hkey
  have hstruthy : (RVal.rstr s).truthy = true := by
    simp [RVal.truthy, isEmpty_false_of_ne_nil hs]
  constructor
  · simp [validate_api_key, hke, hcorrupt, hstruthy, json_loads,
      get_key_delete_key_same]
  · rcases hrow : get_api_token_by_hashed_token db (hash_value key) with _ | row
    · left
      simp [validate_api_key, hke, hcorrupt, hstruthy, json_loads, hrow,
        get_key_delete_key_same]
    · rcases hexp : row.expires_at with _ | texp
      · right
        refine ⟨{ token_id := row.id, user_id := row.user_id,
                  is_revoked := row.is_revoked, expires_at_iso := none }, ?_⟩
        by_cases hrev : row.is_revoked <;>
          simp [validate_api_key, hke, hcorrupt, hstruthy, json_loads, hrow, hexp,
            evaluateSnapshot, get_key_set_key_same, ExpiresIso.truthy, hrev]
      · left
        simp [validate_api_key, hke, hcorrupt, hstruthy, json_loads, hrow, hexp,
          get_key_delete_key_same]

/-- Witness for c5_corrupt_cache_self_heal on a concrete non-empty corrupted
entry with an empty durable store. -/
theorem c5_witness :
    validate_api_key exHash 0 (some "sk_live_tok1".toList) exCorruptRedis exDb =
      validate_api_key exHash 0 (some "sk_live_tok1".toList)
        (delete_key exCorruptRedis (get_api_token_redis_key
          (exHash "sk_live_tok1".toList))) exDb ∧
    (get_key (validate_api_key exHash 0 (some "sk_live_tok1".toList)
        exCorruptRedis exDb).2
        (get_api_token_redis_key (exHash "sk_live_tok1".toList)) = none ∨
     ∃ d, get_key (validate_api_key exHash 0 (some "sk_live_tok1".toList)
        exCorruptRedis exDb).2
        (get_api_token_redis_key (exHash "sk_live_tok1".toList)) =
          some (RVal.rjson d)) :=
  c5_corrupt_cache_self_heal exHash 0 "sk_live_tok1".toList exCorruptRedis exDb
    "garbage".toList (by decide) (by decide) (by decide)

/-- Counterexample to C4 as stated: on a protected-path request carrying a
valid token, when the downstream handler raises, the middleware appends TWO
usage log rows (the success row written before call_next, and the row
written by the exception handler), not exactly one. -/
theorem c4_counterexample :
    publicApiPathRoot.isPrefixOf exReq.path = true ∧
    exDbLive.usage_logs.length = 0 ∧
    (dispatch exHash 0 exDbLive exReq (.raisesExc "boom")).2.usage_logs.length = 2 := by
  refine ⟨by decide, by decide, ?_⟩
  decide

/-- C4 (amended): for every request under the protected public path root,
dispatch appends exactly one ApiUsageLog row, except when validation
succeeds and the downstream handler then raises out of call_next, in which
case a second row is appended by the except branch (two in total). -/
theorem c4_one_log_per_request (hash_value : Str → Str) (now : Int) (db : Db)
    (req : MwRequest) (ds : DownstreamOutcome)
    (hpath : publicApiPathRoot.isPrefixOf req.path = true) :
    (dispatch hash_value now db req ds).2.usage_logs.length =
      db.usage_logs.length +
        (if middlewareValidationSucceeds hash_value now db req = true ∧
            dsRaises ds = true then 2 else 1) := by
  by_cases hpt : optTruthy (extractPlainToken req) = true
  · rcases hrow : get_api_token_by_hashed_token db
        (hash_value ((extractPlainToken req).getD [])) with _ | tok
    · have hmvs : middlewareValidationSucceeds hash_value now db req = false := by
        simp [middlewareValidationSucceeds, dispatch, hpath, hpt, hrow]
      simp [dispatch, hpath, hpt, hrow, hmvs]
    · by_cases hrev : tok.is_revoked = true
      · have hmvs : middlewareValidationSucceeds hash_value now db req = false := by
          simp [middlewareValidationSucceeds, dispatch, hpath, hpt, hrow, hrev]
        simp [dispatch, hpath, hpt, hrow, hrev, hmvs]
      · have hrev2 : tok.is_revoked = false := by
          rw [Bool.eq_false_iff]; exact hrev
        by_cases hexp : (tok.expires_at.map (fun t => decide (t < now))).getD false
            = true
        · have hmvs : middlewareValidationSucceeds hash_value now db req = false := by
            simp [middlewareValidationSucceeds, dispatch, hpath, hpt, hrow, hrev2,
              hexp]
          simp [dispatch, hpath, hpt, hrow, hrev2, hexp, hmvs]
        · have hexp2 : (tok.expires_at.map (fun t => decide (t < now))).getD false
              = false := by
            rw [Bool.eq_false_iff]; exact hexp
          by_cases hact : ((get_user_by_id db tok.user_id).map
              User.is_active).getD false = true
          · have hmvs : middlewareValidationSucceeds hash_value now db req = true := by
              simp [middlewareValidationSucceeds, dispatch, hpath, hpt, hrow, hrev2,
                hexp2, hact, get_user_by_id_updateToken]
            rcases ds with s | ⟨s, det⟩ | msg <;>
              simp [dispatch, hpath, hpt, hrow, hrev2, hexp2, hact, dsRaises, hmvs,
                get_user_by_id_updateToken]
          · have hact2 : ((get_user_by_id db tok.user_id).map
                User.is_active).getD false = false := by
              rw [Bool.eq_false_iff]; exact hact
            have hmvs : middlewareValidationSucceeds hash_value now db req = false := by
              simp [middlewareValidationSucceeds, dispatch, hpath, hpt, hrow, hrev2,
                hexp2, hact2, get_user_by_id_updateToken]
            simp [dispatch, hpath, hpt, hrow, hrev2, hexp2, hact2, hmvs,
              get_user_by_id_updateToken]
  · have hpt2 : optTruthy (extractPlainToken req) = false := by
      rw [Bool.eq_false_iff]; exact hpt
    have hmvs : middlewareValidationSucceeds hash_value now db req = false := by
      simp [middlewareValidationSucceeds, dispatch, hpath, hpt2]
    simp [dispatch, hpath, hpt2, hmvs]

/-- Witness for c4_one_log_per_request on a concrete protected request whose
downstream handler raises after successful validation. -/
theorem c4_witness :
    (dispatch exHash 0 exDbLive exReq (.raisesExc "x")).2.usage_logs.length =
      exDbLive.usage_logs.length +
        (if middlewareValidationSucceeds exHash 0 exDbLive exReq = true ∧
            dsRaises (.raisesExc "x") = true then 2 else 1) :=
  c4_one_log_per_request exHash 0 exDbLive exReq (.raisesExc "x") (by decide)

/-- C6: revocation is idempotent and the revoked flag is monotonic. Revoking
an already-revoked row, through the crud operation or through the
owner-scoped endpoint, is a no-op returning the row unchanged; and none of
the modeled operations that write the api_tokens table (crud revoke, the
revoke endpoint, token issuance, the middleware last_used_at stamp) ever
turns is_revoked from true back to false on any stored row. -/
theorem c6_revocation_idempotent_monotonic (hash_value : Str → Str) (db : Db)
    (redis : RedisState) (t : ApiToken) (token_id : Nat) (u : User) (now : Int)
    (random_part : Str) (tin : ApiTokenCreate) (req : MwRequest)
    (ds : DownstreamOutcome) (i : Nat) (old : ApiToken) :
    (t.is_revoked = true → revoke_api_token db t = (t, db)) ∧
    (∀ tok, get_api_token_by_id_and_user_id db token_id u.id = some tok →
      tok.is_revoked = true →
      revoke_user_api_token db redis token_id u now = (.ok tok, db, redis)) ∧
    (tokenById db i = some old → old.is_revoked = true →
      ∃ x, tokenById (revoke_api_token db t).2 i = some x ∧ x.is_revoked = true) ∧
    (tokenById db i = some old → old.is_revoked = true →
      ∃ x, tokenById (revoke_user_api_token db redis token_id u now).2.1 i = some x ∧
        x.is_revoked = true) ∧
    (tokenById db i = some old → old.is_revoked = true →
      ∃ x, tokenById (create_new_api_token hash_value now random_part db redis tin u).2.1 i
          = some x ∧ x.is_revoked = true) ∧
    (db.api_tokens.Pairwise (fun a b => a.id ≠ b.id) →
      tokenById db i = some old → old.is_revoked = true →
      ∃ x, tokenById (dispatch hash_value now db req ds).2 i = some x ∧
        x.is_revoked = true) := by
  refine ⟨?_, ?_, ?_, ?_, ?_, ?_⟩
  · intro h
    simp [revoke_api_token, h]
  · intro tok hf hrev
    simp [revoke_user_api_token, hf, hrev]
  · exact fun hfind hrev => revoke_api_token_mono db t i old hfind hrev
  · intro hfind hrev
    unfold revoke_user_api_token
    rcases hf : get_api_token_by_id_and_user_id db token_id u.id with _ | tok
    · exact ⟨old, hfind, hrev⟩
    · by_cases hr : tok.is_revoked
      · simp only [hr, if_true]
        exact ⟨old, hfind, hrev⟩
      · simp only [hr, Bool.false_eq_true, if_false]
        exact revoke_api_token_mono db tok i old hfind hrev
  · intro hfind hrev
    refine ⟨old, ?_, hrev⟩
    unfold tokenById at hfind ⊢
    simp only [create_new_api_token, create_api_token]
    simp [List.find?_append, hfind]
  · intro hpw hfind hrev
    rcases dispatch_api_tokens hash_value now db req ds with heq | ⟨tok, hmem, hrevf, heq⟩
    · exact ⟨old, (tokenById_congr i heq).trans hfind, hrev⟩
    · have hom := tokenById_mem db i old hfind
      have hne : (old.id == tok.id) = false := by
        rw [beq_eq_false_iff_ne]
        intro hcontra
        have hoe : old = tok := eq_of_mem_mem_pairwise_ne hpw hom.1 hmem hcontra
        rw [hoe, hrevf] at hrev
        cases hrev
      have h1 : tokenById (dispatch hash_value now db req ds).2 i =
          tokenById (updateToken db { tok with last_used_at := some now }) i :=
        tokenById_congr i heq
      rw [h1, tokenById_updateToken, hfind]
      refine ⟨old, ?_, hrev⟩
      have hne2 : old.id ≠ tok.id := beq_eq_false_iff_ne.mp hne
      simp [hne2]

/-- Witness for c6_revocation_idempotent_monotonic on a concrete store with
a revoked row, with every hypothesis discharged there. -/
theorem c6_witness :
    revoke_api_token exDbTok exToken = (exToken, exDbTok) ∧
    revoke_user_api_token exDbTok [] 1 exUser 0 = (.ok exToken, exDbTok, []) ∧
    (∃ x, tokenById (revoke_api_token exDbTok exToken).2 1 = some x ∧
      x.is_revoked = true) ∧
    (∃ x, tokenById (revoke_user_api_token exDbTok [] 1 exUser 0).2.1 1 = some x ∧
      x.is_revoked = true) ∧
    (∃ x, tokenById
        (create_new_api_token exHash 0 "r".toList exDbTok [] ⟨none, none⟩ exUser).2.1 1
        = some x ∧ x.is_revoked = true) ∧
    (∃ x, tokenById (dispatch exHash 0 exDbTok exReq (.ok 200)).2 1 = some x ∧
      x.is_revoked = true) :=
  ⟨(c6_revocation_idempotent_monotonic exHash exDbTok [] exToken 1 exUser 0
      "r".toList ⟨none, none⟩ exReq (.ok 200) 1 exToken).1 (by decide),
   (c6_revocation_idempotent_monotonic exHash exDbTok [] exToken 1 exUser 0
      "r".toList ⟨none, none⟩ exReq (.ok 200) 1 exToken).2.1 exToken
      (by decide) (by decide),
   (c6_revocation_idempotent_monotonic exHash exDbTok [] exToken 1 exUser 0
      "r".toList ⟨none, none⟩ exReq (.ok 200) 1 exToken).2.2.1
      (by decide) (by decide),
   (c6_revocation_idempotent_monotonic exHash exDbTok [] exToken 1 exUser 0
      "r".toList ⟨none, none⟩ exReq (.ok 200) 1 exToken).2.2.2.1
      (by decide) (by decide),
   (c6_revocation_idempotent_monotonic exHash exDbTok [] exToken 1 exUser 0
      "r".toList ⟨none, none⟩ exReq (.ok 200) 1 exToken).2.2.2.2.1
      (by decide) (by decide),
   (c6_revocation_idempotent_monotonic exHash exDbTok [] exToken 1 exUser 0
      "r".toList ⟨none, none⟩ exReq (.ok 200) 1 exToken).2.2.2.2.2
      (by simp [exDbTok]) (by decide) (by decide)⟩

/-- C10: validate_api_key never consults the owning User row. Its outcome is
a function of the api_tokens table alone — two durable stores with the same
api_tokens table (in particular, differing only in the owning user's
is_active flag) validate identically — so a token of a deactivated user
still validates on this path, while the request-scoped middleware rejects
the same request with 403 because it does check the owner's active flag. -/
theorem c10_validate_never_consults_user (hash_value : Str → Str) (now : Int)
    (api_key_value : Option Str) (redis : RedisState) (db db2 : Db) (key : Str)
    (tok : ApiToken) (u : User) (req : MwRequest) (ds : DownstreamOutcome) :
    (db2.api_tokens = db.api_tokens →
      validate_api_key hash_value now api_key_value redis db2 =
        validate_api_key hash_value now api_key_value redis db) ∧
    (key ≠ [] →
      get_key redis (get_api_token_redis_key (hash_value key)) = none →
      get_api_token_by_hashed_token db (hash_value key) = some tok →
      tok.is_revoked = false → tok.expires_at = none →
      get_user_by_id db tok.user_id = some u → u.is_active = false →
      req.x_api_key = some key → publicApiPathRoot.isPrefixOf req.path = true →
      (validate_api_key hash_value now (some key) redis db).1 =
          .success tok.id tok.user_id ∧
        (dispatch hash_value now db req ds).1 =
          .response 403 "User account issue.") := by
  constructor
  · intro h
    have hsame : ∀ hsh, get_api_token_by_hashed_token db2 hsh =
        get_api_token_by_hashed_token db hsh := by
      intro hsh
      unfold get_api_token_by_hashed_token
      rw [h]
    cases api_key_value with
    | none => simp [validate_api_key]
    | some k => simp [validate_api_key, hsame]
  · intro hkey hmiss hrow hrev hexpn huser hact hx hpath
    have hke := isEmpty_false_of_ne_nil hkey
    constructor
    · simp [validate_api_key, hke, hmiss, hrow, evaluateSnapshot, hrev, hexpn]
    · simp [dispatch, extractPlainToken, hpath, hx, optTruthy, hke, hrow, hrev,
        hexpn, get_user_by_id_updateToken, huser, hact]

/-- Witness for c10_validate_never_consults_user: two concrete stores
differing only in the owner's is_active flag validate identically, the
deactivated owner's token still validates, and the middleware rejects it. -/
theorem c10_witness :
    validate_api_key exHash 0 (some "sk_live_tok1".toList) [] exDbLiveInactive =
      validate_api_key exHash 0 (some "sk_live_tok1".toList) [] exDbLive ∧
    (validate_api_key exHash 0 (some "sk_live_tok1".toList) [] exDbLiveInactive).1 =
      .success 3 1 ∧
    (dispatch exHash 0 exDbLiveInactive exReq (.ok 200)).1 =
      .response 403 "User account issue." :=
  ⟨(c10_validate_never_consults_user exHash 0 (some "sk_live_tok1".toList) []
      exDbLive exDbLiveInactive "sk_live_tok1".toList exTokenLive exUserInactive
      exReq (.ok 200)).1 (by decide),
   ((c10_validate_never_consults_user exHash 0 (some "sk_live_tok1".toList) []
      exDbLiveInactive exDbLive "sk_live_tok1".toList exTokenLive exUserInactive
      exReq (.ok 200)).2 (by decide) (by decide) (by decide) (by decide)
      (by decide) (by decide) (by decide) (by decide) (by decide)).1,
   ((c10_validate_never_consults_user exHash 0 (some "sk_live_tok1".toList) []
      exDbLiveInactive exDbLive "sk_live_tok1".toList exTokenLive exUserInactive
      exReq (.ok 200)).2 (by decide) (by decide) (by decide) (by decide)
      (by decide) (by decide) (by decide) (by decide) (by decide)).2⟩

/-- Witness for c9_preview_locality on concrete strings, with the locality
hypothesis discharged on two plaintexts agreeing on their first 12
characters. -/
theorem c9_witness :
    generate_token_preview (generate_secure_api_token_string "abcdef".toList) =
      apiTokenFixedPrefix ++ ("abcdef".toList).take API_TOKEN_PREVIEW_RANDOM_CHARS
        ++ "...".toList ∧
    generate_token_preview "sk_live_abcdXYZ".toList =
      generate_token_preview "sk_live_abcdQQQ".toList :=
  ⟨(c9_preview_locality "abcdef".toList [] []).1,
   (c9_preview_locality "abcdef".toList "sk_live_abcdXYZ".toList
      "sk_live_abcdQQQ".toList).2 (by decide)⟩

/-- Witness for c7_second_request_overwrites at a concrete state; the
inner hash-difference hypothesis is discharged on distinct codes. -/
theorem c7_witness :
    get_key
      (request_otp_for_user exHash
        (request_otp_for_user exHash exDb exOtpRedis "a@x".toList "11111".toList true).2.1
        (request_otp_for_user exHash exDb exOtpRedis "a@x".toList "11111".toList true).2.2
        "a@x".toList "22222".toList true).2.2
      (get_otp_redis_key "a@x".toList) =
        some (RVal.rstr (exHash "22222".toList)) ∧
    (verify_otp_and_generate_jwt exHash
        (request_otp_for_user exHash
          (request_otp_for_user exHash exDb exOtpRedis "a@x".toList "11111".toList true).2.1
          (request_otp_for_user exHash exDb exOtpRedis "a@x".toList "11111".toList true).2.2
          "a@x".toList "22222".toList true).2.1
        (request_otp_for_user exHash
          (request_otp_for_user exHash exDb exOtpRedis "a@x".toList "11111".toList true).2.1
          (request_otp_for_user exHash exDb exOtpRedis "a@x".toList "11111".toList true).2.2
          "a@x".toList "22222".toList true).2.2
        "a@x".toList "11111".toList).1 = none :=
  ⟨(c7_second_request_overwrites exHash exDb exOtpRedis "a@x".toList
      "11111".toList "22222".toList).1,
   (c7_second_request_overwrites exHash exDb exOtpRedis "a@x".toList
      "11111".toList "22222".toList).2 (by decide)⟩

end TokenPortal
